import Mathlib

/-!
Verification of the DatabaseMate repository core: the dangerous-query
heuristic, the confirmation-gated execution pipeline of
`database_manager.py`, and the LLM client of `llm_client.py`.

SQL text and Python strings are modelled as `List Char`.  Python string
methods are translated char-wise (`str.upper`, `str.lower`, `str.strip`,
`str.split`, `str.find`, the `in` substring test); the translations cover
the ASCII fragment these claims exercise.  The SQLite engine is modelled
as an abstract state-transition function supplied as a parameter: it
either fails with an error message (a raised `sqlite3.Error`) or returns
a new database state together with the cursor data (rows, description,
rowcount, lastrowid).  A normal exit of the `with sqlite3.connect(...)`
block commits, so the engine post-state is kept on every non-exception
path; a raised exception rolls back, so the pre-state is kept there.
-/

/-- Python whitespace characters (the ASCII set stripped by `str.strip`
and used as separators by `str.split()`). -/
def isPySpace (c : Char) : Bool :=
  decide (c.toNat = 32 ∨ c.toNat = 9 ∨ c.toNat = 10 ∨ c.toNat = 13 ∨
    c.toNat = 11 ∨ c.toNat = 12)

/-- Python `str.strip()`: drop whitespace from both ends. -/
def pyStrip (s : List Char) : List Char :=
  ((s.dropWhile isPySpace).reverse.dropWhile isPySpace).reverse

/-- Python `str.upper()` (char-wise, ASCII fragment). -/
def pyUpper (s : List Char) : List Char :=
  s.map Char.toUpper

/-- Python `str.lower()` (char-wise, ASCII fragment). -/
def pyLower (s : List Char) : List Char :=
  s.map Char.toLower

/-- Python `str.find(pat)`: index of the first occurrence of `pat`,
`none` when absent (Python returns `-1`). -/
def findSub (pat : List Char) : List Char → Option Nat
  | [] => if pat.isEmpty then some 0 else none
  | c :: rest =>
    if pat.isPrefixOf (c :: rest) then some 0
    else (findSub pat rest).map (· + 1)

/-- Python substring test `pat in hay`. -/
def pyIn (pat hay : List Char) : Bool :=
  (findSub pat hay).isSome

/-- Python `s.split()[0]` made total: the first whitespace-delimited
token, or `none` when `s.split()` is empty (where Python raises
`IndexError: list index out of range`). -/
def pyFirstWord? (s : List Char) : Option (List Char) :=
  let t := s.dropWhile isPySpace
  if t.isEmpty then none else some (t.takeWhile (fun c => !isPySpace c))

/-- Python `l[-n:]`: the at most `n` last elements of `l`. -/
def lastN (n : Nat) (l : List α) : List α :=
  l.drop (l.length - n)

/-! ## Danger policy (`database_manager.py`, `is_dangerous_query`) -/

def dropTablePat : List Char := "DROP TABLE".data
def dropDatabasePat : List Char := "DROP DATABASE".data
def deleteFromPat : List Char := "DELETE FROM".data
def truncatePat : List Char := "TRUNCATE".data
def alterTablePat : List Char := "ALTER TABLE".data
def wherePat : List Char := "WHERE".data

def warnDropTable : List Char :=
  "This will permanently delete a table and all its data".data
def warnDropDatabase : List Char :=
  "This will permanently delete the entire database".data
def warnDeleteFrom : List Char :=
  "This will delete records (potentially all records if no WHERE clause)".data
def warnTruncate : List Char :=
  "This will delete all records from a table".data
def warnAlterTable : List Char :=
  "This will modify table structure".data

/-- The `dangerous_operations` rule table, in source order. -/
def dangerousOperations : List (List Char × List Char) :=
  [(dropTablePat, warnDropTable),
   (dropDatabasePat, warnDropDatabase),
   (deleteFromPat, warnDeleteFrom),
   (truncatePat, warnTruncate),
   (alterTablePat, warnAlterTable)]

/-- The `for operation, warning in dangerous_operations` loop: first
matching pattern wins, except that a `DELETE FROM` hit is skipped
(`continue`) when `WHERE` also occurs in the uppercased text. -/
def dangerLoop (sqlUpper : List Char) :
    List (List Char × List Char) → Bool × List Char
  | [] => (false, [])
  | (op, warning) :: rest =>
    if pyIn op sqlUpper then
      if op = deleteFromPat ∧ pyIn wherePat sqlUpper then
        dangerLoop sqlUpper rest
      else (true, warning)
    else dangerLoop sqlUpper rest

/-- `DatabaseManager.is_dangerous_query`: evaluates the rule table
against `sql.upper().strip()` and returns `(is_dangerous, warning)`;
`(False, "")` when no rule fires. -/
def is_dangerous_query (sql : List Char) : Bool × List Char :=
  dangerLoop (pyStrip (pyUpper sql)) dangerousOperations

/-! ## Execution gateway (`database_manager.py`, `execute_query`) -/

/-- A SQLite cell value. -/
inductive SqlValue where
  | intV (i : Int)
  | textV (s : List Char)
  | nullV
deriving DecidableEq

/-- `dict(row)`: a row as an ordered column-name-to-value mapping. -/
def SqlRow : Type := List (List Char × SqlValue)

instance : DecidableEq SqlRow := inferInstanceAs (DecidableEq (List _))

/-- The cursor data available after `cursor.execute`: `fetchall()`,
`description` (column names, `None` for statements without a result
set), `rowcount` and `lastrowid`. -/
structure CursorResult where
  rows : List SqlRow
  description : Option (List (List Char))
  rowcount : Int
  lastrowid : Option Int
deriving DecidableEq

/-- An abstract SQLite engine over database states `σ`: executing `sql`
with optional bind parameters either raises `sqlite3.Error e` or moves
the state and yields the cursor data. -/
def Engine (σ : Type) : Type :=
  σ → List Char → Option (List SqlValue) → Except (List Char) (σ × CursorResult)

/-- The `Dict[str, Any]` returned by `execute_query`, with one optional
field per key the source ever puts in the dictionary. -/
structure PyResult where
  success : Bool
  error : Option (List Char) := none
  cancelled : Option Bool := none
  data : Option (List SqlRow) := none
  columns : Option (List (List Char)) := none
  row_count : Option Nat := none
  affected_rows : Option Int := none
  last_row_id : Option (Option Int) := none
  query_type : Option (List Char) := none
  message : Option (List Char) := none
  sql : Option (List Char) := none
deriving DecidableEq

/-- The dictionary returned when the user declines the confirmation. -/
def cancelledResult : PyResult :=
  { success := false
    error := some "Operation cancelled by user".data
    cancelled := some true }

/-- The dictionary returned on the `SELECT` branch. -/
def selectResult (r : CursorResult) : PyResult :=
  { success := true
    data := some r.rows
    columns := some (r.description.getD [])
    row_count := some r.rows.length
    query_type := some "SELECT".data }

/-- The dictionary returned on the mutation branch (after `commit`). -/
def mutationResult (t : List Char) (r : CursorResult) : PyResult :=
  { success := true
    affected_rows := some r.rowcount
    last_row_id := some r.lastrowid
    query_type := some t
    message := some (t ++ " operation completed successfully".data) }

/-- The dictionary returned on the final `else` branch. -/
def unsupportedResult (t : List Char) : PyResult :=
  { success := false
    error := some ("Unsupported query type: ".data ++ t) }

/-- The dictionary built by `except sqlite3.Error as e`. -/
def dbErrorResult (e sql : List Char) : PyResult :=
  { success := false
    error := some ("Database error: ".data ++ e)
    sql := some sql }

/-- The dictionary built by `except Exception as e` when
`sql.strip().upper().split()[0]` raises
`IndexError: list index out of range` on empty or whitespace-only
input (the only Python-level exception reachable in the model). -/
def indexErrorResult (sql : List Char) : PyResult :=
  { success := false
    error := some "Unexpected error: list index out of range".data
    sql := some sql }

/-- Python truthiness of the `params` argument: `if params:` is false
for both `None` and the empty list. -/
def paramsTruthy : Option (List SqlValue) → Option (List SqlValue)
  | some (v :: vs) => some (v :: vs)
  | _ => none

/-- `response = input(...).lower()` followed by
`response not in ['yes', 'y']`. -/
def declinedAnswer (answer : List Char) : Bool :=
  !(pyLower answer == "yes".data || pyLower answer == "y".data)

/-- `sql.strip().upper().split()[0]`, made total with `none` for the
`IndexError` case. -/
def sqlTypeToken? (sql : List Char) : Option (List Char) :=
  pyFirstWord? (pyUpper (pyStrip sql))

/-- The mutation branch list
`['INSERT', 'UPDATE', 'DELETE', 'CREATE', 'DROP', 'ALTER']`. -/
def mutationKinds : List (List Char) :=
  ["INSERT".data, "UPDATE".data, "DELETE".data, "CREATE".data,
   "DROP".data, "ALTER".data]

/-- `DatabaseManager.execute_query`, shallowly embedded.  The
interactive confirmation input is the `answer` parameter (consulted
only when the danger policy fires, exactly as in the source).  Note
that the engine runs `sql` before the first-token dispatch: the
returned state on the `SELECT`, mutation and unsupported branches is
the engine post-state (committed when the `with` block exits), while
the two exception branches roll back to the pre-state. -/
def execute_query (engine : Engine σ) (st : σ) (sql : List Char)
    (params : Option (List SqlValue)) (answer : List Char) : σ × PyResult :=
  if (is_dangerous_query sql).1 && declinedAnswer answer then
    (st, cancelledResult)
  else
    match engine st sql (paramsTruthy params) with
    | .error e => (st, dbErrorResult e sql)
    | .ok (st', cres) =>
      match sqlTypeToken? sql with
      | none => (st, indexErrorResult sql)
      | some t =>
        if t = "SELECT".data then (st', selectResult cres)
        else if t ∈ mutationKinds then (st', mutationResult t cres)
        else (st', unsupportedResult t)

/-! ## LLM client (`llm_client.py`) -/

/-- A chat message `{"role": ..., "content": ...}`. -/
structure ChatMsg where
  role : List Char
  content : List Char
deriving DecidableEq

/-- The mutable fields of `LLMClient`. -/
structure ClientState where
  base_url : List Char
  model : List Char
  system_prompt : List Char
  conversation_history : List ChatMsg
deriving DecidableEq

/-- The outcome of the `requests.post` call to the chat endpoint:
a 200 response with `message.content`, a non-200 status, a
`requests.exceptions.Timeout`, or any other raised exception. -/
inductive ApiOutcome where
  | ok (content : List Char)
  | badStatus (code : Nat)
  | timedOut
  | raised (msg : List Char)
deriving DecidableEq

/-- The `messages` sequence `query_llm` builds and forwards: the system
prompt plus `self.conversation_history[-6:]` when `include_context`,
then the current user message. -/
def buildMessages (st : ClientState) (userMessage : List Char)
    (includeContext : Bool) : List ChatMsg :=
  (if includeContext then
    ⟨"system".data, st.system_prompt⟩ :: lastN 6 st.conversation_history
   else []) ++ [⟨"user".data, userMessage⟩]

/-- `LLMClient.query_llm`: on a 200 response the user and assistant
turns are appended to the stored history and the content is returned;
on any failure the state is untouched and `None` is returned. -/
def query_llm (st : ClientState) (userMessage : List Char)
    (includeContext : Bool) (outcome : ApiOutcome) :
    ClientState × Option (List Char) :=
  match outcome with
  | .ok content =>
    ({ st with conversation_history := st.conversation_history ++
        [⟨"user".data, userMessage⟩, ⟨"assistant".data, content⟩] },
     some content)
  | _ => (st, none)

/-- `LLMClient.add_table_context`: appends one system turn. -/
def add_table_context (st : ClientState) (tableInfo : List Char) : ClientState :=
  { st with conversation_history := st.conversation_history ++
      [⟨"system".data, "Database schema information:\n".data ++ tableInfo⟩] }

/-- `LLMClient.clear_history`: resets the stored history. -/
def clear_history (st : ClientState) : ClientState :=
  { st with conversation_history := [] }

/-- The keyword tuple of the `startswith` test in `extract_sql`. -/
def sqlKeywords : List (List Char) :=
  ["SELECT".data, "INSERT".data, "UPDATE".data, "DELETE".data,
   "CREATE".data, "DROP".data, "ALTER".data]

/-- The line-scan fallback of `extract_sql`: each line is stripped, and
the first stripped line whose uppercase starts with a recognized SQL
keyword is returned. -/
def keywordLine? (response : List Char) : Option (List Char) :=
  ((response.splitOn '\n').map pyStrip).find?
    (fun l => sqlKeywords.any (fun k => k.isPrefixOf (pyUpper l)))

def fenceSqlTag : List Char := "```sql".data
def fenceTag : List Char := "```".data

/-- `LLMClient.extract_sql`: prefer the text between the first
` ```sql ` tag and the next ` ``` ` (stripped); otherwise the first
keyword line; otherwise the whole response stripped. -/
def extract_sql (response : List Char) : List Char :=
  match findSub fenceSqlTag response with
  | some i =>
    match findSub fenceTag (response.drop (i + 6)) with
    | some j => pyStrip ((response.drop (i + 6)).take j)
    | none =>
      match keywordLine? response with
      | some l => l
      | none => pyStrip response
  | none =>
    match keywordLine? response with
    | some l => l
    | none => pyStrip response

/-! ## Helper lemmas -/

theorem findSub_isSome_iff (pat l : List Char) :
    (findSub pat l).isSome = true ↔ pat <:+: l := by
  induction l with
  | nil => cases pat <;> simp [findSub, List.infix_nil]
  | cons x xs ih =>
    rw [findSub]
    by_cases hp : pat.isPrefixOf (x :: xs)
    · simp only [if_pos hp, Option.isSome_some, true_iff]
      exact (List.isPrefixOf_iff_prefix.mp hp).isInfix
    · simp only [if_neg hp]
      have hiso : (Option.map (fun n => n + 1) (findSub pat xs)).isSome
          = (findSub pat xs).isSome := by
        cases findSub pat xs <;> rfl
      rw [hiso, ih, List.infix_cons_iff]
      constructor
      · exact Or.inr
      · rintro (hpre | hinf)
        · exact absurd (List.isPrefixOf_iff_prefix.mpr hpre) hp
        · exact hinf

theorem pyIn_iff (pat hay : List Char) : pyIn pat hay = true ↔ pat <:+: hay :=
  findSub_isSome_iff pat hay

theorem cons_infix_dropWhile {p : Char → Bool} {c : Char} {cs l : List Char}
    (hc : p c = false) (h : (c :: cs) <:+: l) :
    (c :: cs) <:+: l.dropWhile p := by
  induction l with
  | nil => simp [List.infix_nil] at h
  | cons x xs ih =>
    rw [List.dropWhile_cons]
    split
    next hx =>
      apply ih
      rcases List.infix_cons_iff.mp h with hpre | hinf
      · exfalso
        rcases hpre with ⟨t, ht⟩
        injection ht with h1 _
        rw [← h1, hc] at hx
        exact Bool.false_ne_true hx
      · exact hinf
    next => exact h

theorem pyStrip_infix_self (l : List Char) : pyStrip l <:+: l := by
  unfold pyStrip
  have h1 : l.dropWhile isPySpace <:+ l := List.dropWhile_suffix _
  have h2 : (l.dropWhile isPySpace).reverse.dropWhile isPySpace <:+
      (l.dropWhile isPySpace).reverse := List.dropWhile_suffix _
  have h3 : ((l.dropWhile isPySpace).reverse.dropWhile isPySpace).reverse <+:
      l.dropWhile isPySpace := by
    have := List.reverse_prefix.mpr h2
    rwa [List.reverse_reverse] at this
  exact h3.isInfix.trans h1.isInfix

theorem infix_pyStrip {pat l : List Char} (a b : Char)
    (h₀ : pat.head? = some a) (hs₀ : isPySpace a = false)
    (h₁ : pat.getLast? = some b) (hs₁ : isPySpace b = false)
    (h : pat <:+: l) : pat <:+: pyStrip l := by
  obtain ⟨c, cs, rfl⟩ : ∃ c cs, pat = c :: cs := by
    cases pat with
    | nil => simp at h₀
    | cons c cs => exact ⟨c, cs, rfl⟩
  have hca : c = a := by simpa using h₀
  have step1 : (c :: cs) <:+: l.dropWhile isPySpace :=
    cons_infix_dropWhile (by rw [hca]; exact hs₀) h
  have hrev : (c :: cs).reverse <:+: (l.dropWhile isPySpace).reverse :=
    List.reverse_infix.mpr step1
  obtain ⟨rest, hrest⟩ : ∃ rest, (c :: cs).reverse = b :: rest := by
    have hh : (c :: cs).reverse.head? = some b := by
      rw [List.head?_reverse]; exact h₁
    cases hrr : (c :: cs).reverse with
    | nil => rw [hrr] at hh; simp at hh
    | cons y ys =>
      rw [hrr] at hh
      simp at hh
      exact ⟨ys, by rw [hh]⟩
  rw [hrest] at hrev
  have step2 : (b :: rest) <:+:
      ((l.dropWhile isPySpace).reverse.dropWhile isPySpace) :=
    cons_infix_dropWhile hs₁ hrev
  rw [← hrest] at step2
  have final := List.reverse_infix.mpr step2
  rwa [List.reverse_reverse] at final
  -- pyStrip l is definitionally the reverse of the right-hand side
  -- of step2, so `rwa` closes the goal after `reverse_reverse`.

theorem pyIn_strip_iff (pat : List Char) (a b : Char)
    (h₀ : pat.head? = some a) (hs₀ : isPySpace a = false)
    (h₁ : pat.getLast? = some b) (hs₁ : isPySpace b = false)
    (l : List Char) : pyIn pat (pyStrip l) = true ↔ pat <:+: l := by
  rw [pyIn_iff]
  constructor
  · exact fun h => h.trans (pyStrip_infix_self l)
  · exact infix_pyStrip a b h₀ hs₀ h₁ hs₁

theorem dangerLoop_fst_true (U : List Char) (ops : List (List Char × List Char))
    (h : ∃ p ∈ ops, pyIn p.1 U = true ∧
      (p.1 = deleteFromPat → pyIn wherePat U = false)) :
    (dangerLoop U ops).1 = true := by
  induction ops with
  | nil => simp at h
  | cons hd tl ih =>
    obtain ⟨op, w⟩ := hd
    obtain ⟨p, hmem, hin, hdel⟩ := h
    simp only [dangerLoop]
    by_cases h1 : pyIn op U = true
    · rw [if_pos h1]
      by_cases h2 : op = deleteFromPat ∧ pyIn wherePat U = true
      · rw [if_pos h2]
        apply ih
        rcases List.mem_cons.mp hmem with heq | hmem'
        · exfalso
          have : p.1 = deleteFromPat := by rw [heq]; exact h2.1
          rw [hdel this] at h2
          exact Bool.false_ne_true h2.2
        · exact ⟨p, hmem', hin, hdel⟩
      · rw [if_neg h2]
    · rw [if_neg h1]
      apply ih
      rcases List.mem_cons.mp hmem with heq | hmem'
      · exfalso
        rw [heq] at hin
        exact h1 hin
      · exact ⟨p, hmem', hin, hdel⟩

theorem dangerLoop_eq_false (U : List Char) (ops : List (List Char × List Char))
    (h : ∀ p ∈ ops, pyIn p.1 U = true →
      (p.1 = deleteFromPat ∧ pyIn wherePat U = true)) :
    dangerLoop U ops = (false, []) := by
  induction ops with
  | nil => rfl
  | cons hd tl ih =>
    obtain ⟨op, w⟩ := hd
    simp only [dangerLoop]
    by_cases h1 : pyIn op U = true
    · rw [if_pos h1]
      have hop := h (op, w) (List.mem_cons_self _ _) h1
      rw [if_pos hop]
      exact ih fun p hp => h p (List.mem_cons_of_mem _ hp)
    · rw [if_neg h1]
      exact ih fun p hp => h p (List.mem_cons_of_mem _ hp)

theorem findSub_of_isPrefixOf {pat rest : List Char}
    (h : pat.isPrefixOf rest = true) : findSub pat rest = some 0 := by
  cases rest with
  | nil =>
    have : pat = [] := by
      cases pat with
      | nil => rfl
      | cons c cs => simp [List.isPrefixOf] at h
    rw [this]
    rfl
  | cons x xs => rw [findSub, if_pos h]

theorem findSub_append {c : Char} {cs : List Char} (a rest : List Char)
    (ha : c ∉ a) :
    findSub (c :: cs) (a ++ rest) =
      (findSub (c :: cs) rest).map (· + a.length) := by
  induction a with
  | nil =>
    simp only [List.nil_append, List.length_nil]
    cases findSub (c :: cs) rest <;> rfl
  | cons x a' ih =>
    have hcx : c ≠ x := fun h => ha (h ▸ List.mem_cons_self x a')
    have ha' : c ∉ a' := fun h => ha (List.mem_cons_of_mem x h)
    rw [List.cons_append, findSub]
    have hp : (c :: cs).isPrefixOf (x :: (a' ++ rest)) = false := by
      rw [Bool.eq_false_iff]
      intro hcontra
      obtain ⟨t, ht⟩ := List.isPrefixOf_iff_prefix.mp hcontra
      injection ht with h1 _
      exact hcx h1
    rw [if_neg (by rw [hp]; exact Bool.false_ne_true), ih ha']
    cases findSub (c :: cs) rest with
    | none => rfl
    | some n =>
      show some (n + a'.length + 1) = some (n + (a'.length + 1))
      rw [Nat.add_assoc]

/-! ### Character-level facts about `Char.toUpper` and `Char.toLower` -/

theorem char_toNat_ofNat {n : Nat} (h : n.isValidChar) :
    (Char.ofNat n).toNat = n := by
  simp [Char.ofNat, h, Char.ofNatAux, Char.toNat, UInt32.toNat,
    BitVec.toNat_ofNatLt]

theorem toUpper_toLower (c : Char) : c.toLower.toUpper = c.toUpper := by
  unfold Char.toLower Char.toUpper
  by_cases h : c.toNat ≥ 65 ∧ c.toNat ≤ 90
  · rw [if_pos h]
    have ht : (Char.ofNat (c.toNat + 32)).toNat = c.toNat + 32 :=
      char_toNat_ofNat (Or.inl (by omega))
    rw [ht, if_pos (by omega), if_neg (by omega)]
    have h32 : c.toNat + 32 - 32 = c.toNat := by omega
    rw [h32, Char.ofNat_toNat]
  · rw [if_neg h]

theorem isPySpace_toUpper (c : Char) : isPySpace c.toUpper = isPySpace c := by
  unfold Char.toUpper
  by_cases h : c.toNat ≥ 97 ∧ c.toNat ≤ 122
  · rw [if_pos h]
    have ht : (Char.ofNat (c.toNat - 32)).toNat = c.toNat - 32 :=
      char_toNat_ofNat (Or.inl (by omega))
    unfold isPySpace
    rw [ht]
    rw [decide_eq_false (by rintro (h' | h' | h' | h' | h' | h') <;> omega),
      decide_eq_false (by rintro (h' | h' | h' | h' | h' | h') <;> omega)]
  · rw [if_neg h]

theorem isPySpace_toLower (c : Char) : isPySpace c.toLower = isPySpace c := by
  unfold Char.toLower
  by_cases h : c.toNat ≥ 65 ∧ c.toNat ≤ 90
  · rw [if_pos h]
    have ht : (Char.ofNat (c.toNat + 32)).toNat = c.toNat + 32 :=
      char_toNat_ofNat (Or.inl (by omega))
    unfold isPySpace
    rw [ht]
    rw [decide_eq_false (by rintro (h' | h' | h' | h' | h' | h') <;> omega),
      decide_eq_false (by rintro (h' | h' | h' | h' | h' | h') <;> omega)]
  · rw [if_neg h]

/-- `strip` commutes with a char-wise map that preserves whitespace. -/
theorem pyStrip_map {f : Char → Char}
    (hf : ∀ c, isPySpace (f c) = isPySpace c) (s : List Char) :
    pyStrip (s.map f) = (pyStrip s).map f := by
  have hcomp : (isPySpace ∘ f) = isPySpace := funext hf
  unfold pyStrip
  rw [List.dropWhile_map, hcomp, ← List.map_reverse, List.dropWhile_map,
    hcomp, ← List.map_reverse]

/-! ## Claims -/

/-- Claim C3: every statement containing `DROP TABLE`, `DROP DATABASE`,
`TRUNCATE` or `ALTER TABLE` in any letter case (that is, whose uppercased
text contains the canonical pattern) is classified dangerous; a statement
matching none of the rule-table patterns (where the `DELETE FROM` rule only
fires without a `WHERE` substring) is classified not dangerous with an
empty rationale string. -/
theorem danger_patterns_classified (S : List Char) :
    ((dropTablePat <:+: pyUpper S ∨ dropDatabasePat <:+: pyUpper S ∨
      truncatePat <:+: pyUpper S ∨ alterTablePat <:+: pyUpper S) →
      (is_dangerous_query S).1 = true) ∧
    ((¬ dropTablePat <:+: pyUpper S ∧ ¬ dropDatabasePat <:+: pyUpper S ∧
      (¬ deleteFromPat <:+: pyUpper S ∨ wherePat <:+: pyUpper S) ∧
      ¬ truncatePat <:+: pyUpper S ∧ ¬ alterTablePat <:+: pyUpper S) →
      is_dangerous_query S = (false, [])) := by
  have hDT := pyIn_strip_iff dropTablePat 'D' 'E'
    (by decide) (by decide) (by decide) (by decide) (pyUpper S)
  have hDD := pyIn_strip_iff dropDatabasePat 'D' 'E'
    (by decide) (by decide) (by decide) (by decide) (pyUpper S)
  have hDF := pyIn_strip_iff deleteFromPat 'D' 'M'
    (by decide) (by decide) (by decide) (by decide) (pyUpper S)
  have hTR := pyIn_strip_iff truncatePat 'T' 'E'
    (by decide) (by decide) (by decide) (by decide) (pyUpper S)
  have hAT := pyIn_strip_iff alterTablePat 'A' 'E'
    (by decide) (by decide) (by decide) (by decide) (pyUpper S)
  have hWH := pyIn_strip_iff wherePat 'W' 'E'
    (by decide) (by decide) (by decide) (by decide) (pyUpper S)
  unfold is_dangerous_query
  constructor
  · rintro (h | h | h | h)
    · exact dangerLoop_fst_true _ _ ⟨(dropTablePat, warnDropTable), by decide,
        hDT.mpr h, fun he => absurd he (by decide)⟩
    · exact dangerLoop_fst_true _ _ ⟨(dropDatabasePat, warnDropDatabase), by decide,
        hDD.mpr h, fun he => absurd he (by decide)⟩
    · exact dangerLoop_fst_true _ _ ⟨(truncatePat, warnTruncate), by decide,
        hTR.mpr h, fun he => absurd he (by decide)⟩
    · exact dangerLoop_fst_true _ _ ⟨(alterTablePat, warnAlterTable), by decide,
        hAT.mpr h, fun he => absurd he (by decide)⟩
  · rintro ⟨h1, h2, h3, h4, h5⟩
    apply dangerLoop_eq_false
    intro p hp hin
    simp only [dangerousOperations, List.mem_cons, List.not_mem_nil,
      or_false] at hp
    rcases hp with rfl | rfl | rfl | rfl | rfl
    · exact absurd (hDT.mp hin) h1
    · exact absurd (hDD.mp hin) h2
    · exact ⟨rfl, hWH.mpr (h3.resolve_left fun hn => hn (hDF.mp hin))⟩
    · exact absurd (hTR.mp hin) h4
    · exact absurd (hAT.mp hin) h5

/-- Witness for C3 at concrete inputs: a mixed-case `ALTER TABLE`
statement is flagged, a plain `SELECT` is not. -/
theorem danger_patterns_classified_witness :
    (is_dangerous_query "AlTeR TaBlE users ADD COLUMN note".data).1 = true ∧
    is_dangerous_query "SELECT name FROM users".data = (false, []) :=
  ⟨(danger_patterns_classified _).1 (Or.inr (Or.inr (Or.inr (by decide)))),
   (danger_patterns_classified _).2
     ⟨by decide, by decide, Or.inl (by decide), by decide, by decide⟩⟩

/-- Claim C4 counterexample: `DELETE FROM logs WHERE kind = TRUNCATE`
is a statement of the form `DELETE FROM <x> WHERE <y>`, yet
`is_dangerous_query` classifies it as dangerous (the `TRUNCATE` rule
fires on the substring inside the WHERE predicate), contradicting the
claim that every such statement yields `is_dangerous == false`. -/
theorem delete_where_exemption_cex :
    "DELETE FROM logs WHERE kind = TRUNCATE".data =
      "DELETE FROM ".data ++ "logs".data ++ " WHERE ".data ++
        "kind = TRUNCATE".data ∧
    (is_dangerous_query "DELETE FROM logs WHERE kind = TRUNCATE".data).1 =
      true :=
  ⟨by decide, by decide⟩

/-- Claim C4 (amended): a statement containing `DELETE FROM` and `WHERE`
(any case) is classified not dangerous provided none of the other
rule-table patterns occurs in its text; a statement containing
`DELETE FROM` with no `WHERE` substring anywhere (case-insensitively)
is always classified dangerous. -/
theorem delete_where_exemption (S : List Char) :
    (deleteFromPat <:+: pyUpper S → wherePat <:+: pyUpper S →
      ¬ dropTablePat <:+: pyUpper S → ¬ dropDatabasePat <:+: pyUpper S →
      ¬ truncatePat <:+: pyUpper S → ¬ alterTablePat <:+: pyUpper S →
      is_dangerous_query S = (false, [])) ∧
    (deleteFromPat <:+: pyUpper S → ¬ wherePat <:+: pyUpper S →
      (is_dangerous_query S).1 = true) := by
  have hDT := pyIn_strip_iff dropTablePat 'D' 'E'
    (by decide) (by decide) (by decide) (by decide) (pyUpper S)
  have hDD := pyIn_strip_iff dropDatabasePat 'D' 'E'
    (by decide) (by decide) (by decide) (by decide) (pyUpper S)
  have hTR := pyIn_strip_iff truncatePat 'T' 'E'
    (by decide) (by decide) (by decide) (by decide) (pyUpper S)
  have hAT := pyIn_strip_iff alterTablePat 'A' 'E'
    (by decide) (by decide) (by decide) (by decide) (pyUpper S)
  have hDF := pyIn_strip_iff deleteFromPat 'D' 'M'
    (by decide) (by decide) (by decide) (by decide) (pyUpper S)
  have hWH := pyIn_strip_iff wherePat 'W' 'E'
    (by decide) (by decide) (by decide) (by decide) (pyUpper S)
  constructor
  · intro hdf hwh h1 h2 h4 h5
    unfold is_dangerous_query
    apply dangerLoop_eq_false
    intro p hp hin
    simp only [dangerousOperations, List.mem_cons, List.not_mem_nil,
      or_false] at hp
    rcases hp with rfl | rfl | rfl | rfl | rfl
    · exact absurd (hDT.mp hin) h1
    · exact absurd (hDD.mp hin) h2
    · exact ⟨rfl, hWH.mpr hwh⟩
    · exact absurd (hTR.mp hin) h4
    · exact absurd (hAT.mp hin) h5
  · intro hdf hnw
    unfold is_dangerous_query
    refine dangerLoop_fst_true _ _ ⟨(deleteFromPat, warnDeleteFrom), by decide,
      hDF.mpr hdf, fun _ => ?_⟩
    rw [Bool.eq_false_iff]
    intro hw
    exact hnw (hWH.mp hw)

/-- Witness for C4 (amended) at concrete inputs: a lowercase scoped
delete is exempt, an unscoped delete is flagged. -/
theorem delete_where_exemption_witness :
    is_dangerous_query "delete from users where id = 4".data = (false, []) ∧
    (is_dangerous_query "DELETE FROM users".data).1 = true :=
  ⟨(delete_where_exemption _).1 (by decide) (by decide) (by decide) (by decide)
     (by decide) (by decide),
   (delete_where_exemption _).2 (by decide) (by decide)⟩

/-- A concrete test engine on `Nat` states that accepts every statement
and bumps the state by one, used to exhibit that `execute_query`
reaches the engine. -/
def bumpEngine : Engine Nat := fun st _ _ =>
  .ok (st + 1, ⟨[], none, 1, some 7⟩)

/-- A concrete test engine that accepts every statement without moving
the state and returns an empty cursor. -/
def noopEngine : Engine Nat := fun st _ _ =>
  .ok (st, ⟨[], none, -1, none⟩)

/-- A concrete test engine that raises on every statement. -/
def failEngine : Engine Nat := fun _ _ _ =>
  .error "no such table: ghosts".data

/-- The cursor produced by `SELECT COUNT(*)` over an empty table: one
row, one column, value `0`. -/
def countCursor : CursorResult :=
  ⟨[[("COUNT(*)".data, SqlValue.intV 0)]], some ["COUNT(*)".data], -1, none⟩

/-- A concrete test engine answering every statement with
`countCursor`. -/
def countEngine : Engine Nat := fun st _ _ => .ok (st, countCursor)

/-- Claim C2: when the danger policy fires and the confirmation answer
is a decline, `execute_query` returns the pre-state together with the
cancelled dictionary, for every engine (the engine is never consulted,
so no connection is opened and the storage state is exactly unchanged);
the cancelled dictionary is marked by `cancelled = True` and is none of
the RowSet, MutationSummary, engine-error or unsupported-error shapes. -/
theorem declined_confirmation_cancelled {σ : Type} (engine : Engine σ)
    (st : σ) (sql : List Char) (params : Option (List SqlValue))
    (answer : List Char)
    (hdang : (is_dangerous_query sql).1 = true)
    (hdecl : declinedAnswer answer = true) :
    execute_query engine st sql params answer = (st, cancelledResult) ∧
    cancelledResult.cancelled = some true ∧
    cancelledResult.data = none ∧
    cancelledResult.columns = none ∧
    cancelledResult.affected_rows = none ∧
    cancelledResult.sql = none ∧
    (∀ r, cancelledResult ≠ selectResult r) ∧
    (∀ t r, cancelledResult ≠ mutationResult t r) ∧
    (∀ e q, cancelledResult ≠ dbErrorResult e q) ∧
    (∀ t, cancelledResult ≠ unsupportedResult t) := by
  refine ⟨?_, rfl, rfl, rfl, rfl, rfl, ?_, ?_, ?_, ?_⟩
  · unfold execute_query
    rw [if_pos (by rw [hdang, hdecl]; rfl)]
  · intro r
    simp [cancelledResult, selectResult]
  · intro t r
    simp [cancelledResult, mutationResult]
  · intro e q
    simp [cancelledResult, dbErrorResult]
  · intro t
    simp [cancelledResult, unsupportedResult]

/-- Witness for C2: declining `DROP TABLE products` with answer `no`
leaves the state at its initial value and yields the cancelled
dictionary (under an engine that would have changed the state). -/
theorem declined_confirmation_cancelled_witness :
    execute_query bumpEngine 3 "DROP TABLE products".data none "no".data =
      (3, cancelledResult) :=
  (declined_confirmation_cancelled bumpEngine 3 "DROP TABLE products".data
    none "no".data (by decide) (by decide)).1

/-- Dispatch lemma: once the confirmation gate passes and the engine
call succeeds, `execute_query` branches on the first token of the
stripped uppercased statement. -/
theorem execute_query_ok {σ : Type} (engine : Engine σ) (st : σ)
    (sql : List Char) (params : Option (List SqlValue)) (answer : List Char)
    {st' : σ} {cres : CursorResult}
    (heng : engine st sql (paramsTruthy params) = .ok (st', cres))
    (hgate : ((is_dangerous_query sql).1 && declinedAnswer answer) = false) :
    execute_query engine st sql params answer =
      match sqlTypeToken? sql with
      | none => (st, indexErrorResult sql)
      | some t =>
        if t = "SELECT".data then (st', selectResult cres)
        else if t ∈ mutationKinds then (st', mutationResult t cres)
        else (st', unsupportedResult t) := by
  unfold execute_query
  rw [if_neg (by rw [hgate]; exact Bool.false_ne_true), heng]

/-- Claim C1 (amended): for every SQL string whose first
whitespace-delimited token (uppercased) is not one of the seven
recognized kinds, and which the engine accepts, `execute_query` returns
the unsupported-kind Error dictionary — but the statement has already
been executed against the engine: the returned state is the engine
post-state, not the unchanged pre-state. -/
theorem unsupported_kind_executes {σ : Type} (engine : Engine σ) (st : σ)
    (sql : List Char) (params : Option (List SqlValue)) (answer : List Char)
    {st' : σ} {cres : CursorResult} {t : List Char}
    (heng : engine st sql (paramsTruthy params) = .ok (st', cres))
    (htok : sqlTypeToken? sql = some t)
    (hgate : ((is_dangerous_query sql).1 && declinedAnswer answer) = false)
    (hsel : t ≠ "SELECT".data) (hmut : t ∉ mutationKinds) :
    execute_query engine st sql params answer = (st', unsupportedResult t) ∧
    (unsupportedResult t).success = false ∧
    (unsupportedResult t).error =
      some ("Unsupported query type: ".data ++ t) := by
  refine ⟨?_, rfl, rfl⟩
  rw [execute_query_ok engine st sql params answer heng hgate, htok]
  show (if t = "SELECT".data then (st', selectResult cres)
    else if t ∈ mutationKinds then (st', mutationResult t cres)
    else (st', unsupportedResult t)) = (st', unsupportedResult t)
  rw [if_neg hsel, if_neg hmut]

/-- Claim C1 counterexample: `REPLACE INTO users VALUES (1)` has first
token `REPLACE`, outside the recognized list, yet under an engine that
bumps the state on every execution the state moves from `0` to `1`:
the statement was executed against the engine and the database state
changed, contradicting the claim. -/
theorem unsupported_kind_executes_cex :
    execute_query bumpEngine 0 "REPLACE INTO users VALUES (1)".data none [] =
      (1, unsupportedResult "REPLACE".data) ∧
    (execute_query bumpEngine 0
      "REPLACE INTO users VALUES (1)".data none []).1 ≠ 0 :=
  ⟨by decide, by decide⟩

/-- Witness for C1 (amended): a `PRAGMA` statement yields the
unsupported-kind Error dictionary while the engine post-state is kept. -/
theorem unsupported_kind_executes_witness :
    execute_query bumpEngine 5 "PRAGMA table_list".data none [] =
      (6, unsupportedResult "PRAGMA".data) :=
  (unsupported_kind_executes bumpEngine 5 "PRAGMA table_list".data none []
    rfl rfl (by decide) (by decide) (by decide)).1

/-- Claim C5 (amended): when the engine accepts the statement and the
confirmation gate passes, `execute_query` classifies by the first
whitespace-delimited token of the uppercased trimmed input — `SELECT`,
one of the six mutation kinds, or unsupported — and the classification
is insensitive to leading whitespace and to the letter case of the
input; however, an empty or whitespace-only input has no first token
(`sql.strip().upper().split()[0]` raises `IndexError`) and produces the
unexpected-error dictionary, not an UNSUPPORTED classification. -/
theorem first_token_classification {σ : Type} (engine : Engine σ) (st : σ)
    (sql : List Char) (params : Option (List SqlValue)) (answer : List Char)
    {st' : σ} {cres : CursorResult}
    (heng : engine st sql (paramsTruthy params) = .ok (st', cres))
    (hgate : ((is_dangerous_query sql).1 && declinedAnswer answer) = false) :
    (sqlTypeToken? sql = some "SELECT".data →
      execute_query engine st sql params answer = (st', selectResult cres)) ∧
    (∀ t, sqlTypeToken? sql = some t → t ∈ mutationKinds →
      execute_query engine st sql params answer =
        (st', mutationResult t cres)) ∧
    (∀ t, sqlTypeToken? sql = some t → t ≠ "SELECT".data →
      t ∉ mutationKinds →
      execute_query engine st sql params answer =
        (st', unsupportedResult t)) ∧
    (sqlTypeToken? sql = none →
      execute_query engine st sql params answer =
        (st, indexErrorResult sql)) ∧
    (∀ c, isPySpace c = true → sqlTypeToken? (c :: sql) = sqlTypeToken? sql) ∧
    sqlTypeToken? (pyLower sql) = sqlTypeToken? sql := by
  have base := execute_query_ok engine st sql params answer heng hgate
  refine ⟨?_, ?_, ?_, ?_, ?_, ?_⟩
  · intro h
    rw [base, h]
    show (if "SELECT".data = "SELECT".data then (st', selectResult cres)
      else if "SELECT".data ∈ mutationKinds then
        (st', mutationResult "SELECT".data cres)
      else (st', unsupportedResult "SELECT".data)) = (st', selectResult cres)
    rw [if_pos rfl]
  · intro t h hm
    have hts : t ≠ "SELECT".data := fun hts => absurd (hts ▸ hm) (by decide)
    rw [base, h]
    show (if t = "SELECT".data then (st', selectResult cres)
      else if t ∈ mutationKinds then (st', mutationResult t cres)
      else (st', unsupportedResult t)) = (st', mutationResult t cres)
    rw [if_neg hts, if_pos hm]
  · intro t h hts hm
    rw [base, h]
    show (if t = "SELECT".data then (st', selectResult cres)
      else if t ∈ mutationKinds then (st', mutationResult t cres)
      else (st', unsupportedResult t)) = (st', unsupportedResult t)
    rw [if_neg hts, if_neg hm]
  · intro h
    rw [base, h]
  · intro c hc
    unfold sqlTypeToken?
    have hstrip : pyStrip (c :: sql) = pyStrip sql := by
      unfold pyStrip
      rw [List.dropWhile_cons, if_pos hc]
    rw [hstrip]
  · unfold sqlTypeToken?
    rw [show pyLower sql = sql.map Char.toLower from rfl,
      pyStrip_map isPySpace_toLower]
    have h2 : ∀ m : List Char, pyUpper (m.map Char.toLower) = pyUpper m := by
      intro m
      unfold pyUpper
      rw [List.map_map]
      congr 1
      funext c
      exact toUpper_toLower c
    rw [h2]

/-- Claim C5 counterexample: on the empty input there is no first
token; the result is the caught-`IndexError` dictionary whose error
text does not even start with `Unsupported`, so the empty input is not
classified UNSUPPORTED as the claim states. -/
theorem first_token_classification_cex :
    sqlTypeToken? [] = none ∧
    execute_query noopEngine 0 [] none [] = (0, indexErrorResult []) ∧
    ("Unsupported".data).isPrefixOf ((indexErrorResult []).error.getD []) =
      false :=
  ⟨by decide, by decide, by decide⟩

/-- Witness for C5 (amended): the spec example
`   insert into t values (1)` classifies as INSERT despite leading
whitespace and lowercase. -/
theorem first_token_classification_witness :
    execute_query noopEngine 0 "   insert into t values (1)".data none [] =
      (0, mutationResult "INSERT".data ⟨[], none, -1, none⟩) :=
  (first_token_classification noopEngine 0
    "   insert into t values (1)".data none [] rfl (by decide)).2.1
    "INSERT".data (by decide) (by decide)

/-- Claim C6: for every `SELECT` statement the engine accepts,
`execute_query` returns the engine post-state together with a
successful RowSet dictionary: the eagerly materialized rows, the
column names from the cursor metadata (empty when the description is
`None`), and `row_count` equal to the number of rows; since `success`
is true unconditionally, a zero-row result is a success with an empty
sequence, not an Error. -/
theorem select_rowset_success {σ : Type} (engine : Engine σ) (st : σ)
    (sql : List Char) (params : Option (List SqlValue)) (answer : List Char)
    {st' : σ} {cres : CursorResult}
    (heng : engine st sql (paramsTruthy params) = .ok (st', cres))
    (htok : sqlTypeToken? sql = some "SELECT".data)
    (hgate : ((is_dangerous_query sql).1 && declinedAnswer answer) = false) :
    execute_query engine st sql params answer = (st', selectResult cres) ∧
    (selectResult cres).success = true ∧
    (selectResult cres).data = some cres.rows ∧
    (selectResult cres).columns = some (cres.description.getD []) ∧
    (selectResult cres).row_count = some cres.rows.length ∧
    (selectResult cres).error = none := by
  refine ⟨?_, rfl, rfl, rfl, rfl, rfl⟩
  rw [execute_query_ok engine st sql params answer heng hgate, htok]
  show (if "SELECT".data = "SELECT".data then (st', selectResult cres)
    else if "SELECT".data ∈ mutationKinds then
      (st', mutationResult "SELECT".data cres)
    else (st', unsupportedResult "SELECT".data)) = (st', selectResult cres)
  rw [if_pos rfl]

/-- Witness for C6: `SELECT COUNT(*)` over an empty table returns a
RowSet with one row, one column and value `0` — not an Error. -/
theorem select_rowset_success_witness :
    execute_query countEngine 0 "SELECT COUNT(*) FROM orders".data none [] =
      (0, selectResult countCursor) ∧
    (selectResult countCursor).row_count = some 1 ∧
    (selectResult countCursor).data =
      some [[("COUNT(*)".data, SqlValue.intV 0)]] :=
  ⟨(select_rowset_success countEngine 0 "SELECT COUNT(*) FROM orders".data
      none [] rfl (by decide) (by decide)).1,
   by decide, by decide⟩

/-- Claim C7: every engine-level failure is caught and converted into
an Error dictionary that carries the engine message (prefixed with
`Database error: `) and the original SQL text; the embedding is a total
function, so no failure propagates as an uncaught fault, and the
rolled-back state is the pre-state. -/
theorem engine_failure_reported {σ : Type} (engine : Engine σ) (st : σ)
    (sql : List Char) (params : Option (List SqlValue)) (answer : List Char)
    {e : List Char}
    (heng : engine st sql (paramsTruthy params) = .error e)
    (hgate : ((is_dangerous_query sql).1 && declinedAnswer answer) = false) :
    execute_query engine st sql params answer = (st, dbErrorResult e sql) ∧
    (dbErrorResult e sql).success = false ∧
    (dbErrorResult e sql).error = some ("Database error: ".data ++ e) ∧
    (dbErrorResult e sql).sql = some sql := by
  refine ⟨?_, rfl, rfl, rfl⟩
  unfold execute_query
  rw [if_neg (by rw [hgate]; exact Bool.false_ne_true), heng]

/-- Witness for C7: a failing engine call surfaces as an Error
dictionary with the engine message and the original SQL. -/
theorem engine_failure_reported_witness :
    execute_query failEngine 2 "SELECT * FROM ghosts".data none [] =
      (2, dbErrorResult "no such table: ghosts".data
        "SELECT * FROM ghosts".data) :=
  (engine_failure_reported failEngine 2 "SELECT * FROM ghosts".data
    none [] rfl (by decide)).1

/-- The backtick character (written by code so that fence boundaries
can be reasoned about). -/
def backtickChar : Char := Char.ofNat 96

/-- Claim C8: the extraction fallback chain of `extract_sql`, in order.
First, a response containing a fenced block tagged `sql` (here: prose
`p` free of backticks, the ````sql`` tag, backtick-free block content
`q`, the closing fence, arbitrary trailing prose `p'`) extracts exactly
the block text stripped of surrounding whitespace, regardless of the
surrounding prose.  Otherwise, the first line whose stripped text
starts (case-insensitively) with a recognized SQL keyword is returned
(stripped).  Otherwise the whole response is returned trimmed. -/
theorem extract_sql_fallback_chain :
    (∀ p q p', backtickChar ∉ p → backtickChar ∉ q →
      extract_sql (p ++ (fenceSqlTag ++ (q ++ (fenceTag ++ p')))) =
        pyStrip q) ∧
    (∀ r l, ¬ fenceSqlTag <:+: r → keywordLine? r = some l →
      extract_sql r = l) ∧
    (∀ r, ¬ fenceSqlTag <:+: r → keywordLine? r = none →
      extract_sql r = pyStrip r) := by
  refine ⟨?_, ?_, ?_⟩
  · intro p q p' hp hq
    have hfs : fenceSqlTag = backtickChar :: "``sql".data := by decide
    have hft : fenceTag = backtickChar :: "``".data := by decide
    have h1 : findSub fenceSqlTag
        (p ++ (fenceSqlTag ++ (q ++ (fenceTag ++ p')))) = some p.length := by
      rw [hfs, findSub_append p _ hp,
        findSub_of_isPrefixOf
          (List.isPrefixOf_iff_prefix.mpr (List.prefix_append _ _))]
      show some (0 + p.length) = some p.length
      rw [Nat.zero_add]
    have hlen : p.length + 6 = (p ++ fenceSqlTag).length := by
      rw [List.length_append, show fenceSqlTag.length = 6 from by decide]
    have h2 : (p ++ (fenceSqlTag ++ (q ++ (fenceTag ++ p')))).drop
        (p.length + 6) = q ++ (fenceTag ++ p') := by
      rw [← List.append_assoc, hlen, List.drop_left]
    have h3 : findSub fenceTag (q ++ (fenceTag ++ p')) = some q.length := by
      rw [hft, findSub_append q _ hq,
        findSub_of_isPrefixOf
          (List.isPrefixOf_iff_prefix.mpr (List.prefix_append _ _))]
      show some (0 + q.length) = some q.length
      rw [Nat.zero_add]
    have h4 : (q ++ (fenceTag ++ p')).take q.length = q :=
      List.take_left q _
    unfold extract_sql
    simp only [h1, h2, h3, h4]
  · intro r l hnf hkl
    have hnone : findSub fenceSqlTag r = none := by
      cases hf : findSub fenceSqlTag r with
      | none => rfl
      | some i =>
        exact absurd ((findSub_isSome_iff _ _).mp (by rw [hf]; rfl)) hnf
    unfold extract_sql
    simp only [hnone, hkl]
  · intro r hnf hkl
    have hnone : findSub fenceSqlTag r = none := by
      cases hf : findSub fenceSqlTag r with
      | none => rfl
      | some i =>
        exact absurd ((findSub_isSome_iff _ _).mp (by rw [hf]; rfl)) hnf
    unfold extract_sql
    simp only [hnone, hkl]

/-- Witness for C8: a fenced `sql` block surrounded by prose extracts
exactly the embedded statement; without a fence, the first
keyword-starting line (here indented lowercase `select`) is returned
stripped. -/
theorem extract_sql_fallback_chain_witness :
    extract_sql ("Here is the query:\n".data ++ (fenceSqlTag ++
      ("\nSELECT * FROM users;\n".data ++ (fenceTag ++ "\nDone.".data)))) =
      "SELECT * FROM users;".data ∧
    extract_sql "Use this:\n  select name from users\nthanks".data =
      "select name from users".data :=
  ⟨(extract_sql_fallback_chain.1 "Here is the query:\n".data
      "\nSELECT * FROM users;\n".data "\nDone.".data
      (by decide) (by decide)).trans (by decide),
   extract_sql_fallback_chain.2.1
     "Use this:\n  select name from users\nthanks".data
     "select name from users".data (by decide) (by decide)⟩

/-- Claim C9: the message sequence forwarded to the Translator is the
system prompt (when context is included), the at most 6 most recent
stored turns, and the current user message — at most 8 messages in all
— while the stored history itself is never truncated: the forwarded
window is a suffix of the stored history, every client operation that
touches the history (`query_llm`, `add_table_context`) only appends to
it (the old history stays a prefix), and only `clear_history` empties
it. -/
theorem history_window_and_append_only (st : ClientState)
    (u info : List Char) (ic : Bool) (out : ApiOutcome) :
    buildMessages st u ic =
      (if ic then ⟨"system".data, st.system_prompt⟩ ::
        lastN 6 st.conversation_history else []) ++ [⟨"user".data, u⟩] ∧
    (lastN 6 st.conversation_history).length ≤ 6 ∧
    lastN 6 st.conversation_history <:+ st.conversation_history ∧
    (buildMessages st u ic).length ≤ 8 ∧
    st.conversation_history <+:
      (query_llm st u ic out).1.conversation_history ∧
    st.conversation_history <+:
      (add_table_context st info).conversation_history ∧
    (clear_history st).conversation_history = [] := by
  refine ⟨rfl, ?_, ?_, ?_, ?_, ?_, rfl⟩
  · rw [lastN, List.length_drop]
    omega
  · exact List.drop_suffix _ _
  · cases ic with
    | true =>
      show (((⟨"system".data, st.system_prompt⟩ : ChatMsg) ::
        lastN 6 st.conversation_history) ++
          [(⟨"user".data, u⟩ : ChatMsg)]).length ≤ 8
      rw [List.length_append, List.length_cons, lastN, List.length_drop]
      show st.conversation_history.length -
        (st.conversation_history.length - 6) + 1 + 1 ≤ 8
      omega
    | false =>
      show (([] : List ChatMsg) ++ [(⟨"user".data, u⟩ : ChatMsg)]).length ≤ 8
      rw [List.nil_append]
      show 1 ≤ 8
      omega
  · cases out with
    | ok c => exact List.prefix_append _ _
    | badStatus code => exact List.prefix_refl _
    | timedOut => exact List.prefix_refl _
    | raised m => exact List.prefix_refl _
  · exact List.prefix_append _ _

/-- Witness for C9 at a concrete eight-turn history: the forwarded
window is the last six turns, and clearing empties the store. -/
theorem history_window_and_append_only_witness :
    (lastN 6 (List.replicate 8 (⟨"user".data, "hi".data⟩ : ChatMsg))).length
      ≤ 6 ∧
    (clear_history ⟨"url".data, "m".data, "sys".data,
      List.replicate 8 ⟨"user".data, "hi".data⟩⟩).conversation_history = [] :=
  ⟨(history_window_and_append_only ⟨"url".data, "m".data, "sys".data,
      List.replicate 8 ⟨"user".data, "hi".data⟩⟩ "q".data "i".data true
      (ApiOutcome.ok "r".data)).2.1,
   (history_window_and_append_only ⟨"url".data, "m".data, "sys".data,
      List.replicate 8 ⟨"user".data, "hi".data⟩⟩ "q".data "i".data true
      (ApiOutcome.ok "r".data)).2.2.2.2.2.2⟩

/-- Claim C10: when the Translator call fails (non-200 status, timeout
or raised exception), `query_llm` returns `None` and the whole client
state — history included — is exactly unchanged; on success exactly the
user turn followed by the assistant turn are appended and the content
is returned, with every other field of the client state unchanged. -/
theorem query_llm_frame (st : ClientState) (u : List Char) (ic : Bool)
    (out : ApiOutcome) :
    (∀ code, out = .badStatus code → query_llm st u ic out = (st, none)) ∧
    (out = .timedOut → query_llm st u ic out = (st, none)) ∧
    (∀ m, out = .raised m → query_llm st u ic out = (st, none)) ∧
    (∀ c, out = .ok c →
      query_llm st u ic out =
        ({ st with conversation_history := st.conversation_history ++
            [⟨"user".data, u⟩, ⟨"assistant".data, c⟩] }, some c)) ∧
    (query_llm st u ic out).1.base_url = st.base_url ∧
    (query_llm st u ic out).1.model = st.model ∧
    (query_llm st u ic out).1.system_prompt = st.system_prompt := by
  refine ⟨?_, ?_, ?_, ?_, ?_, ?_, ?_⟩
  · rintro code rfl
    rfl
  · rintro rfl
    rfl
  · rintro m rfl
    rfl
  · rintro c rfl
    rfl
  · cases out <;> rfl
  · cases out <;> rfl
  · cases out <;> rfl

/-- Witness for C10: a timeout leaves a concrete one-turn history
unchanged; a success appends exactly the two new turns. -/
theorem query_llm_frame_witness :
    query_llm ⟨"url".data, "m".data, "sys".data,
        [⟨"user".data, "old".data⟩]⟩ "q".data true ApiOutcome.timedOut =
      (⟨"url".data, "m".data, "sys".data, [⟨"user".data, "old".data⟩]⟩,
        none) ∧
    query_llm ⟨"url".data, "m".data, "sys".data,
        [⟨"user".data, "old".data⟩]⟩ "q".data true
        (ApiOutcome.ok "SELECT 1;".data) =
      (⟨"url".data, "m".data, "sys".data,
        [⟨"user".data, "old".data⟩, ⟨"user".data, "q".data⟩,
         ⟨"assistant".data, "SELECT 1;".data⟩]⟩,
        some "SELECT 1;".data) :=
  ⟨(query_llm_frame ⟨"url".data, "m".data, "sys".data,
      [⟨"user".data, "old".data⟩]⟩ "q".data true ApiOutcome.timedOut).2.1
      rfl,
   ((query_llm_frame ⟨"url".data, "m".data, "sys".data,
      [⟨"user".data, "old".data⟩]⟩ "q".data true
      (ApiOutcome.ok "SELECT 1;".data)).2.2.2.1 "SELECT 1;".data rfl).trans
      (by decide)⟩
